import Mathlib

/-!
Verification of the flood-prediction serving pipeline.

The backend (FastAPI + CatBoost) is embedded from the handler and predictor
code of the repository: request validation, feature assembly
(`_prepare_input`), risk classification (`_calculate_risk_level`), scoring
(`predict`) and the `/predict` endpoint (`predict_flood`).  The frontend form
logic (`PredictionForm.tsx`) is embedded for the live-weather and
historical-date handlers.  Probabilities and feature values are modelled as
rationals; a backend float that may be NaN or infinite is modelled by `Fl`.
-/

namespace FloodPredictor

/-- A floating-point value as the feature assembler sees it: a finite number,
NaN, or one of the two infinities.  `_prepare_input` replaces the three
non-finite cases with `0.0`. -/
inductive Fl where
  | finite (q : ℚ)
  | nan
  | posInf
  | negInf
deriving DecidableEq

/-- `PredictionRequest` (backend `app/models.py`): the 13 required numeric
fields of a prediction request. -/
structure PredictionRequest where
  lat : Fl
  lon : Fl
  date : Fl
  elevation : Fl
  slope : Fl
  landcover : Fl
  precip_1d : Fl
  precip_3d : Fl
  precip_7d : Fl
  precip_14d : Fl
  dis_last : Fl
  dis_trend_3 : Fl
  dayofyear : Fl
deriving DecidableEq

/-- `PredictionResponse`: probability, discrete risk tier, binary flood
decision and confidence score. -/
structure PredictionResponse where
  flood_probability : ℚ
  risk_level : String
  is_flood_predicted : Bool
  confidence : ℚ
deriving DecidableEq

/-- `ModelMetadata.feature_names`: the ordered list of the 13 feature names
of the trained model (backend README, feature table order). -/
def feature_names : List String :=
  ["lat", "lon", "date", "elevation", "slope", "landcover",
   "precip_1d", "precip_3d", "precip_7d", "precip_14d",
   "dis_last", "dis_trend_3", "dayofyear"]

/-- The `data` dictionary built by `_prepare_input` from the request, as a
key-value list in the insertion order of the source. -/
def requestData (r : PredictionRequest) : List (String × Fl) :=
  [("lat", r.lat), ("lon", r.lon), ("date", r.date),
   ("elevation", r.elevation), ("slope", r.slope), ("landcover", r.landcover),
   ("precip_1d", r.precip_1d), ("precip_3d", r.precip_3d),
   ("precip_7d", r.precip_7d), ("precip_14d", r.precip_14d),
   ("dis_last", r.dis_last), ("dis_trend_3", r.dis_trend_3),
   ("dayofyear", r.dayofyear)]

/-- Column access by name in a key-value list, as
`pd.DataFrame([data], columns=...)` selects each named column from the
dictionary.  A name absent from the dictionary yields a NaN column. -/
def lookupEntry (k : String) : List (String × Fl) → Fl
  | [] => Fl.nan
  | (k₀, v) :: rest => if k₀ = k then v else lookupEntry k rest

/-- `pd.DataFrame([data], columns=self.feature_names)`: the single row, its
columns taken from the dictionary in `feature_names` order, regardless of the
order of the dictionary entries. -/
def makeRow (entries : List (String × Fl)) : List Fl :=
  feature_names.map fun n => lookupEntry n entries

/-- `df.replace([np.inf, -np.inf], np.nan)` on one value. -/
def replaceInfWithNan : Fl → Fl
  | Fl.posInf => Fl.nan
  | Fl.negInf => Fl.nan
  | x => x

/-- `df.fillna(0.0)` on one value. -/
def fillnaZero : Fl → Fl
  | Fl.nan => Fl.finite 0
  | x => x

/-- The combined effect of the two sanitation passes of `_prepare_input` on
one value. -/
def sanitize (x : Fl) : Fl := fillnaZero (replaceInfWithNan x)

/-- Row assembly from a given key-value list: build the row in
`feature_names` order, then apply the two sanitation passes. -/
def assembleFrom (entries : List (String × Fl)) : List Fl :=
  ((makeRow entries).map replaceInfWithNan).map fillnaZero

/-- `_prepare_input` (backend `app/predictor.py`): build the `data`
dictionary from the request and assemble the single-row feature vector. -/
def prepare_input (r : PredictionRequest) : List Fl :=
  assembleFrom (requestData r)

/-- `_calculate_risk_level` (backend `app/predictor.py`), exactly as the
source writes it: thresholds 0.3 and 0.7. -/
def calculate_risk_level (probability : ℚ) : String :=
  if probability < 3/10 then "Low"
  else if probability < 7/10 then "Medium"
  else "High"

/-- `predict` (backend `app/predictor.py`), parameterized by the flood-class
probability `probabilities[0][1]` returned by the external CatBoost model. -/
def predict (flood_probability : ℚ) : PredictionResponse :=
  { flood_probability := flood_probability
    risk_level := calculate_risk_level flood_probability
    is_flood_predicted := decide (flood_probability ≥ 1/2)
    confidence := |flood_probability - 1/2| * 2 }

/-- An exception inside the `/predict` handler: an HTTPException carrying a
status code and detail, or any other exception carrying its message. -/
inductive Exn where
  | http (status : ℕ) (detail : String)
  | other (msg : String)
deriving DecidableEq

/-- `str(e)` for an exception: starlette renders an HTTPException as
`"{status_code}: {detail}"`; any other exception renders as its message. -/
def exnMessage : Exn → String
  | Exn.http s d => toString s ++ ": " ++ d
  | Exn.other m => m

/-- The try-block of the `predict_flood` handler (backend `app/main.py`):
raise HTTPException 503 when the model is not loaded, otherwise run
`predictor.predict` — abstracted as `run`, which may itself raise. -/
def predict_flood_body (model_loaded : Bool)
    (run : Except String PredictionResponse) : Except Exn PredictionResponse :=
  if !model_loaded then Except.error (Exn.http 503 "Model not loaded")
  else
    match run with
    | Except.ok p => Except.ok p
    | Except.error m => Except.error (Exn.other m)

/-- The whole `predict_flood` handler: the blanket `except Exception` clause
catches every exception raised in the try-block — the 503 HTTPException
included, since HTTPException subclasses Exception — and re-raises
`HTTPException(status_code=500, detail=str(e))`. -/
def predict_flood (model_loaded : Bool)
    (run : Except String PredictionResponse) : Except Exn PredictionResponse :=
  match predict_flood_body model_loaded run with
  | Except.ok p => Except.ok p
  | Except.error e => Except.error (Exn.http 500 (exnMessage e))

/-! Helper lemmas. -/

theorem sanitize_finite (q : ℚ) : sanitize (Fl.finite q) = Fl.finite q := rfl

theorem sanitize_nonfinite :
    sanitize Fl.nan = Fl.finite 0 ∧ sanitize Fl.posInf = Fl.finite 0 ∧
      sanitize Fl.negInf = Fl.finite 0 :=
  ⟨rfl, rfl, rfl⟩

theorem sanitize_isFinite (x : Fl) : ∃ q : ℚ, sanitize x = Fl.finite q := by
  cases x <;> exact ⟨_, rfl⟩

/-- The assembled vector, written out field by field: the i-th column is the
sanitized value of the i-th feature name. -/
theorem prepare_input_eq (r : PredictionRequest) :
    prepare_input r =
      [sanitize r.lat, sanitize r.lon, sanitize r.date, sanitize r.elevation,
       sanitize r.slope, sanitize r.landcover, sanitize r.precip_1d,
       sanitize r.precip_3d, sanitize r.precip_7d, sanitize r.precip_14d,
       sanitize r.dis_last, sanitize r.dis_trend_3, sanitize r.dayofyear] :=
  rfl

/-- Column lookup only depends on the key-value map, not on the order of the
entries, as long as no key repeats. -/
theorem lookupEntry_perm (k : String) :
    ∀ {l₁ l₂ : List (String × Fl)}, l₁.Perm l₂ →
      (l₁.map Prod.fst).Nodup → lookupEntry k l₁ = lookupEntry k l₂ := by
  intro l₁ l₂ p
  induction p with
  | nil => intro _; rfl
  | cons x _ ih =>
      intro nd
      simp only [List.map_cons, List.nodup_cons] at nd
      simp only [lookupEntry]
      by_cases hx : x.1 = k
      · simp [hx]
      · simp [hx, ih nd.2]
  | swap x y l =>
      intro nd
      simp only [List.map_cons, List.nodup_cons, List.mem_cons] at nd
      simp only [lookupEntry]
      rcases eq_or_ne y.1 k with hy | hy <;> rcases eq_or_ne x.1 k with hx | hx
      · exact absurd (hy.trans hx.symm) fun h => nd.1 (Or.inl h)
      · simp [hy, hx]
      · simp [hy, hx]
      · simp [hy, hx]
  | trans p₁ p₂ ih₁ ih₂ =>
      intro nd
      exact (ih₁ nd).trans (ih₂ (((p₁.map Prod.fst).nodup_iff).mp nd))

/-- The key set of the request dictionary has no repeats. -/
theorem requestData_keys_nodup (r : PredictionRequest) :
    ((requestData r).map Prod.fst).Nodup := by
  show feature_names.Nodup
  decide

/-- A request whose 13 fields are all finite numbers. -/
def Fl.isFinite : Fl → Bool
  | Fl.finite _ => true
  | _ => false

def allFinite (r : PredictionRequest) : Prop :=
  ∀ e ∈ requestData r, Fl.isFinite e.2 = true

instance (r : PredictionRequest) : Decidable (allFinite r) := by
  unfold allFinite; infer_instance

/-! The claims. -/

/-- C1: for every fully-populated `PredictionRequest` the feature assembler
produces a single-row vector whose length is the length of
`ModelMetadata.feature_names` (13), whose i-th column holds the value of the
i-th feature name, and which does not change when the entries of the request
dictionary are reordered: the column order is canonicalized by the assembler
via `feature_names`. -/
theorem feature_vector_assembly (r : PredictionRequest) :
    (prepare_input r).length = feature_names.length
    ∧ feature_names.length = 13
    ∧ (allFinite r →
        prepare_input r =
          [r.lat, r.lon, r.date, r.elevation, r.slope, r.landcover,
           r.precip_1d, r.precip_3d, r.precip_7d, r.precip_14d,
           r.dis_last, r.dis_trend_3, r.dayofyear])
    ∧ ∀ entries : List (String × Fl), entries.Perm (requestData r) →
        assembleFrom entries = prepare_input r := by
  refine ⟨rfl, rfl, ?_, ?_⟩
  · intro hf
    have h : ∀ e ∈ requestData r, Fl.isFinite e.2 = true := hf
    rw [prepare_input_eq]
    simp only [requestData, List.mem_cons, List.not_mem_nil, or_false,
      forall_eq_or_imp, forall_eq] at h
    obtain ⟨h1, h2, h3, h4, h5, h6, h7, h8, h9, h10, h11, h12, h13⟩ := h
    have fin : ∀ x : Fl, Fl.isFinite x = true → sanitize x = x := by
      intro x hx
      cases x
      · rfl
      · exact absurd hx (by simp [Fl.isFinite])
      · exact absurd hx (by simp [Fl.isFinite])
      · exact absurd hx (by simp [Fl.isFinite])
    rw [fin _ h1, fin _ h2, fin _ h3, fin _ h4, fin _ h5, fin _ h6, fin _ h7,
      fin _ h8, fin _ h9, fin _ h10, fin _ h11, fin _ h12, fin _ h13]
  · intro entries hperm
    have ndE : (entries.map Prod.fst).Nodup :=
      ((hperm.map Prod.fst).nodup_iff).mpr (requestData_keys_nodup r)
    unfold assembleFrom prepare_input assembleFrom makeRow
    have : ∀ n ∈ feature_names,
        lookupEntry n entries = lookupEntry n (requestData r) := fun n _ =>
      lookupEntry_perm n hperm ndE
    rw [List.map_congr_left this]

/-- The fully-populated sample request of the repository documentation. -/
def sampleRequest : PredictionRequest :=
  { lat := Fl.finite (238103/10000), lon := Fl.finite (904125/10000)
    date := Fl.finite 180, elevation := Fl.finite (105/10)
    slope := Fl.finite (1/2), landcover := Fl.finite 11
    precip_1d := Fl.finite 50, precip_3d := Fl.finite 120
    precip_7d := Fl.finite 200, precip_14d := Fl.finite 300
    dis_last := Fl.finite 1500, dis_trend_3 := Fl.finite 100
    dayofyear := Fl.finite 180 }

/-- C1 witness: at the documented sample request, the assembled vector is the
13 field values in `feature_names` order, and assembling from the reversed
dictionary yields the same vector. -/
theorem feature_vector_assembly_check :
    allFinite sampleRequest
    ∧ prepare_input sampleRequest =
        [sampleRequest.lat, sampleRequest.lon, sampleRequest.date,
         sampleRequest.elevation, sampleRequest.slope, sampleRequest.landcover,
         sampleRequest.precip_1d, sampleRequest.precip_3d,
         sampleRequest.precip_7d, sampleRequest.precip_14d,
         sampleRequest.dis_last, sampleRequest.dis_trend_3,
         sampleRequest.dayofyear]
    ∧ assembleFrom (requestData sampleRequest).reverse =
        prepare_input sampleRequest :=
  have hf : allFinite sampleRequest := by decide
  ⟨hf, (feature_vector_assembly sampleRequest).2.2.1 hf,
    (feature_vector_assembly sampleRequest).2.2.2 _ (List.reverse_perm _)⟩

/-- C2 counterexample: the claim places the Medium/High boundary at 0.6, but
at probability 0.65 — which is at least 0.6 — the risk classifier of the
source returns "Medium", not "High". -/
theorem calculate_risk_level_claim_counterexample :
    (3/5 : ℚ) ≤ 13/20 ∧ calculate_risk_level (13/20) = "Medium"
      ∧ calculate_risk_level (13/20) ≠ "High" := by
  refine ⟨by norm_num, ?_, ?_⟩
  · have h1 : ¬((13/20 : ℚ) < 3/10) := by norm_num
    have h2 : (13/20 : ℚ) < 7/10 := by norm_num
    simp [calculate_risk_level, h1, h2]
  · have h1 : ¬((13/20 : ℚ) < 3/10) := by norm_num
    have h2 : (13/20 : ℚ) < 7/10 := by norm_num
    simp [calculate_risk_level, h1, h2]

/-- Helper: the exact tier boundaries of the risk classifier of the source. -/
theorem riskLevel_iff (p : ℚ) :
    (calculate_risk_level p = "Low" ↔ p < 3/10)
    ∧ (calculate_risk_level p = "Medium" ↔ 3/10 ≤ p ∧ p < 7/10)
    ∧ (calculate_risk_level p = "High" ↔ 7/10 ≤ p) := by
  unfold calculate_risk_level
  split_ifs with h1 h2
  · exact ⟨iff_of_true rfl h1,
      iff_of_false (by decide) (by intro hc; linarith [hc.1]),
      iff_of_false (by decide) (by intro hc; linarith)⟩
  · exact ⟨iff_of_false (by decide) h1,
      iff_of_true rfl ⟨not_lt.mp h1, h2⟩,
      iff_of_false (by decide) (by intro hc; linarith)⟩
  · exact ⟨iff_of_false (by decide) h1,
      iff_of_false (by decide) (by intro hc; exact h2 hc.2),
      iff_of_true rfl (not_lt.mp h2)⟩

/-- C2 (amended): the risk classifier of the source assigns Low exactly below
0.3, Medium exactly on [0.3, 0.7), and High exactly from 0.7 on — the
Medium/High boundary is 0.7 in `_calculate_risk_level`, not the 0.6 used by
the backend README and the UI gauge. -/
theorem calculate_risk_level_boundaries (p : ℚ) :
    (calculate_risk_level p = "Low" ↔ p < 3/10)
    ∧ (calculate_risk_level p = "Medium" ↔ 3/10 ≤ p ∧ p < 7/10)
    ∧ (calculate_risk_level p = "High" ↔ 7/10 ≤ p) :=
  riskLevel_iff p

/-- C2 witness: the boundary characterization evaluated at 0.5 yields
Medium. -/
theorem calculate_risk_level_boundaries_check :
    calculate_risk_level (1/2) = "Medium" :=
  ((calculate_risk_level_boundaries (1/2)).2.1).mpr (by norm_num)

/-- C3: when the model is not loaded, the handler raises HTTPException 503 —
but the blanket `except Exception` of the same handler catches it and
re-raises a 500, so every error the handler reports carries status 500 and
the client never receives the 503. -/
theorem predict_flood_notLoaded_returns_500 :
    (∀ run : Except String PredictionResponse,
      predict_flood false run =
        Except.error (Exn.http 500 "503: Model not loaded"))
    ∧ ∀ (loaded : Bool) (run : Except String PredictionResponse)
        (s : ℕ) (d : String),
        predict_flood loaded run = Except.error (Exn.http s d) → s = 500 := by
  refine ⟨fun _ => rfl, ?_⟩
  intro loaded run s d h
  unfold predict_flood at h
  rcases hb : predict_flood_body loaded run with e | p <;> rw [hb] at h
  · simp only [Except.error.injEq, Exn.http.injEq] at h
    exact h.1.symm
  · simp at h

/-- C4: the confidence score is the distance of the probability from the 0.5
decision boundary rescaled by 2: it is 0 at 0.5, it is 1 at 0 and at 1, and
it is symmetric around 0.5. -/
theorem predict_confidence_spec :
    (∀ p : ℚ, (predict p).confidence = |p - 1/2| * 2)
    ∧ (predict (1/2)).confidence = 0
    ∧ (predict 0).confidence = 1
    ∧ (predict 1).confidence = 1
    ∧ ∀ p : ℚ, (predict p).confidence = (predict (1 - p)).confidence := by
  refine ⟨fun p => rfl, ?_, ?_, ?_, fun p => ?_⟩
  · show |(1:ℚ)/2 - 1/2| * 2 = 0
    norm_num
  · show |(0:ℚ) - 1/2| * 2 = 1
    rw [abs_of_nonpos (by norm_num)]; norm_num
  · show |(1:ℚ) - 1/2| * 2 = 1
    rw [abs_of_nonneg (by norm_num)]; norm_num
  · show |p - 1/2| * 2 = |1 - p - 1/2| * 2
    rw [show (1:ℚ) - p - 1/2 = -(p - 1/2) by ring, abs_neg]

/-- C5: the binary flood decision is exactly the 0.5 threshold on the
probability, and it is independent of the three-tier classification: both at
probability 0.4 and at probability 0.55 the risk tier is Medium, yet the
flood decision differs. -/
theorem predict_threshold_independent :
    (∀ p : ℚ, (predict p).is_flood_predicted = true ↔ 1/2 ≤ p)
    ∧ ((predict (2/5)).risk_level = "Medium"
        ∧ (predict (2/5)).is_flood_predicted = false)
    ∧ ((predict (11/20)).risk_level = "Medium"
        ∧ (predict (11/20)).is_flood_predicted = true) := by
  refine ⟨fun p => ?_, ⟨?_, ?_⟩, ⟨?_, ?_⟩⟩
  · show decide (p ≥ 1/2) = true ↔ 1/2 ≤ p
    rw [decide_eq_true_iff]
  · show calculate_risk_level (2/5) = "Medium"
    exact ((riskLevel_iff (2/5)).2.1).mpr (by norm_num)
  · show decide ((2:ℚ)/5 ≥ 1/2) = false
    rw [decide_eq_false_iff_not]
    norm_num
  · show calculate_risk_level (11/20) = "Medium"
    exact ((riskLevel_iff (11/20)).2.1).mpr (by norm_num)
  · show decide ((11:ℚ)/20 ≥ 1/2) = true
    rw [decide_eq_true_iff]
    norm_num

/-- C6: the feature assembler replaces exactly the non-finite field values
(NaN and the two infinities) with 0.0, leaves every finite field unchanged,
and returns normally — the assembled row always consists of 13 finite
numbers. -/
theorem prepare_input_sanitizes (r : PredictionRequest) :
    (sanitize Fl.nan = Fl.finite 0 ∧ sanitize Fl.posInf = Fl.finite 0
      ∧ sanitize Fl.negInf = Fl.finite 0)
    ∧ (∀ q : ℚ, sanitize (Fl.finite q) = Fl.finite q)
    ∧ prepare_input r =
        [sanitize r.lat, sanitize r.lon, sanitize r.date, sanitize r.elevation,
         sanitize r.slope, sanitize r.landcover, sanitize r.precip_1d,
         sanitize r.precip_3d, sanitize r.precip_7d, sanitize r.precip_14d,
         sanitize r.dis_last, sanitize r.dis_trend_3, sanitize r.dayofyear]
    ∧ ∀ x ∈ prepare_input r, ∃ q : ℚ, x = Fl.finite q := by
  refine ⟨sanitize_nonfinite, sanitize_finite, prepare_input_eq r, ?_⟩
  intro x hx
  rw [prepare_input_eq] at hx
  simp only [List.mem_cons, List.not_mem_nil, or_false] at hx
  rcases hx with h | h | h | h | h | h | h | h | h | h | h | h | h <;>
    · subst h
      exact sanitize_isFinite _

/-- Modelled from the spec: the live aggregation of the Weather Aggregation
Service (the backend weather-service code is not among the repository files).
Daily precipitation samples arrive most recent last; a trailing `n`-day sum
adds the last `n` available samples, days preceding the available history
counting as zero. -/
def trailingSum (n : ℕ) (samples : List ℚ) : ℚ :=
  (samples.reverse.take n).sum

/-- Modelled from the spec: the partial feature patch returned by live
aggregation — the four rolling precipitation windows. -/
structure LivePatch where
  precip_1d : ℚ
  precip_3d : ℚ
  precip_7d : ℚ
  precip_14d : ℚ
deriving DecidableEq

/-- Modelled from the spec: live aggregation computes the 1/3/7/14-day
trailing sums from the most recent daily samples. -/
def liveAggregation (samples : List ℚ) : LivePatch :=
  { precip_1d := trailingSum 1 samples
    precip_3d := trailingSum 3 samples
    precip_7d := trailingSum 7 samples
    precip_14d := trailingSum 14 samples }

/-- Padding the front of the history with zero days never changes a trailing
sum: short history behaves exactly as history padded with leading zeros. -/
theorem trailingSum_pad (n k : ℕ) (samples : List ℚ) :
    trailingSum n (List.replicate k 0 ++ samples) = trailingSum n samples := by
  unfold trailingSum
  rw [List.reverse_append, List.reverse_replicate,
    List.take_append_eq_append_take, List.sum_append, List.take_replicate,
    List.sum_replicate, smul_zero, add_zero]

/-- C7: on a full 14-day history `[d0..d13]` (most recent last) the live
aggregation returns `d13`, the sum of the last 3 days, the sum of the last 7
days and the sum of all 14 days; on shorter history the missing leading days
count as zero — aggregating zero-padded history gives the same patch as
aggregating the short history itself, and the computation is total. -/
theorem live_aggregation_windows :
    (∀ d0 d1 d2 d3 d4 d5 d6 d7 d8 d9 d10 d11 d12 d13 : ℚ,
      liveAggregation [d0, d1, d2, d3, d4, d5, d6, d7, d8, d9, d10, d11, d12, d13] =
        { precip_1d := d13
          precip_3d := d11 + d12 + d13
          precip_7d := d7 + d8 + d9 + d10 + d11 + d12 + d13
          precip_14d := d0 + d1 + d2 + d3 + d4 + d5 + d6 + d7 + d8 + d9
            + d10 + d11 + d12 + d13 })
    ∧ ∀ (k : ℕ) (samples : List ℚ),
        liveAggregation (List.replicate k 0 ++ samples) =
          liveAggregation samples := by
  constructor
  · intro d0 d1 d2 d3 d4 d5 d6 d7 d8 d9 d10 d11 d12 d13
    unfold liveAggregation trailingSum
    simp only [List.reverse_cons, List.reverse_nil, List.nil_append,
      List.cons_append, List.take, List.sum_cons, List.sum_nil,
      LivePatch.mk.injEq]
    refine ⟨by ring, by ring, by ring, by ring⟩
  · intro k samples
    unfold liveAggregation
    rw [trailingSum_pad, trailingSum_pad, trailingSum_pad, trailingSum_pad]

/-- C7 witness: the window equations evaluated on the concrete history
1, 2, ..., 14 and on the same history with two leading zero days removed. -/
theorem live_aggregation_windows_check :
    liveAggregation [1, 2, 3, 4, 5, 6, 7, 8, 9, 10, 11, 12, 13, 14] =
      { precip_1d := 14, precip_3d := 12 + 13 + 14
        precip_7d := 8 + 9 + 10 + 11 + 12 + 13 + 14
        precip_14d := 1 + 2 + 3 + 4 + 5 + 6 + 7 + 8 + 9 + 10 + 11 + 12 + 13 + 14 }
    ∧ liveAggregation (List.replicate 2 0 ++ [5, 6, 7]) = liveAggregation [5, 6, 7] :=
  ⟨live_aggregation_windows.1 1 2 3 4 5 6 7 8 9 10 11 12 13 14,
    live_aggregation_windows.2 2 [5, 6, 7]⟩

/-- Modelled from the spec: one daily `WeatherSample` of the historical
series; `day` is a chronological day index, `date` its rendered date. -/
structure WeatherSample where
  day : ℕ
  date : String
  precipitation : ℚ
  temperature : ℚ
deriving DecidableEq

/-- Modelled from the spec: the successful `GET /weather/history` payload —
parallel arrays of dates, precipitation and max temperature. -/
structure HistoryResponse where
  dates : List String
  precipitation : List ℚ
  temperature : List ℚ
deriving DecidableEq

/-- Chronological ordering of the samples as a computable check: each day
index is strictly below the next. -/
def chronological : List WeatherSample → Bool
  | [] => true
  | [_] => true
  | a :: b :: rest => decide (a.day < b.day) && chronological (b :: rest)

theorem chronological_iff (l : List WeatherSample) :
    chronological l = true ↔ List.Chain' (fun a b => a.day < b.day) l := by
  induction l with
  | nil => simp [chronological]
  | cons a t ih =>
      cases t with
      | nil => simp [chronological]
      | cons b rest =>
          simp only [chronological, Bool.and_eq_true, decide_eq_true_iff,
            List.chain'_cons] at ih ⊢
          rw [ih]

/-- Modelled from the spec: the historical-series operation returns the
provider samples as a response exactly when 30 chronologically ordered days
are present, and explicitly flags a gap otherwise — it never silently
returns a shorter series. -/
def buildHistory (samples : List WeatherSample) : Except String HistoryResponse :=
  if samples.length = 30 ∧ chronological samples = true then
    Except.ok
      { dates := samples.map WeatherSample.date
        precipitation := samples.map WeatherSample.precipitation
        temperature := samples.map WeatherSample.temperature }
  else Except.error "historical series incomplete or out of order"

/-- C8: every successful history response carries exactly 30 dates, 30
precipitation values and 30 temperatures, drawn from chronologically ordered
samples; a provider history of fewer than 30 days is flagged with an explicit
error, never returned as a silently shorter array. -/
theorem history_response_shape :
    (∀ (samples : List WeatherSample) (resp : HistoryResponse),
      buildHistory samples = Except.ok resp →
        resp.dates.length = 30 ∧ resp.precipitation.length = 30
          ∧ resp.temperature.length = 30
          ∧ List.Chain' (fun a b => a.day < b.day) samples)
    ∧ ∀ samples : List WeatherSample, samples.length < 30 →
        ∃ e, buildHistory samples = Except.error e := by
  constructor
  · intro samples resp h
    unfold buildHistory at h
    split_ifs at h with hc
    · obtain ⟨hlen, hchain⟩ := hc
      obtain rfl := Except.ok.inj h
      exact ⟨by simpa using hlen, by simpa using hlen, by simpa using hlen,
        (chronological_iff samples).mp hchain⟩
  · intro samples hshort
    unfold buildHistory
    rw [if_neg fun hc => absurd hc.1 (Nat.ne_of_lt hshort)]
    exact ⟨_, rfl⟩

/-- A complete 30-day provider history: days 0..29, constant weather. -/
def sampleHistory : List WeatherSample :=
  (List.range 30).map fun i =>
    { day := i, date := "day", precipitation := 1, temperature := 25 }

/-- C8 witness: the builder succeeds on the concrete 30-day history and the
resulting arrays all have length 30; on the first 10 days alone it reports an
explicit error. -/
theorem history_response_shape_check :
    (∃ resp, buildHistory sampleHistory = Except.ok resp
      ∧ resp.dates.length = 30 ∧ resp.precipitation.length = 30
      ∧ resp.temperature.length = 30)
    ∧ ∃ e, buildHistory (sampleHistory.take 10) = Except.error e :=
  have hok : buildHistory sampleHistory =
      Except.ok
        { dates := sampleHistory.map WeatherSample.date
          precipitation := sampleHistory.map WeatherSample.precipitation
          temperature := sampleHistory.map WeatherSample.temperature } := by
    unfold buildHistory
    rw [if_pos]
    exact ⟨by decide, by decide⟩
  ⟨⟨_, hok, ((history_response_shape.1 sampleHistory _ hok).1),
      ((history_response_shape.1 sampleHistory _ hok).2.1),
      ((history_response_shape.1 sampleHistory _ hok).2.2.1)⟩,
    history_response_shape.2 (sampleHistory.take 10) (by decide)⟩

/-- The `formData` state of `PredictionForm.tsx`: the 13 numeric form
fields of the frontend request type. -/
structure FormData where
  lat : ℚ
  lon : ℚ
  date : ℚ
  elevation : ℚ
  slope : ℚ
  landcover : ℚ
  precip_1d : ℚ
  precip_3d : ℚ
  precip_7d : ℚ
  precip_14d : ℚ
  dis_last : ℚ
  dis_trend_3 : ℚ
  dayofyear : ℚ
deriving DecidableEq

/-- One day in milliseconds, the `oneDay` constant of
`handleHistoricalDateSelect`. -/
def oneDayMs : ℤ := 1000 * 60 * 60 * 24

/-- The day-of-year computation of `handleHistoricalDateSelect`:
`Math.floor((dateObj - start) / oneDay)` where `start` is the last day of
the preceding year, as floor division on millisecond timestamps. -/
def computeDayOfYear (dateMs startMs : ℤ) : ℤ :=
  (dateMs - startMs).fdiv oneDayMs

/-- `handleHistoricalDateSelect` (`PredictionForm.tsx`): on selecting a
historical date, spread the previous form state and set the four
precipitation windows to the precipitation of that single day, and both
`dayofyear` and `date` to the computed day of year. -/
def handleHistoricalDateSelect (prev : FormData) (entryPrecipitation : ℚ)
    (dateMs startMs : ℤ) : FormData :=
  let dayOfYear : ℤ := computeDayOfYear dateMs startMs
  { prev with
    precip_1d := entryPrecipitation
    precip_3d := entryPrecipitation
    precip_7d := entryPrecipitation
    precip_14d := entryPrecipitation
    dayofyear := (dayOfYear : ℚ)
    date := (dayOfYear : ℚ) }

/-- The parsed `/weather/live` payload as `fetchLiveData` reads it:
`elevation` and the four precipitation sums are always present; `slope`,
`landcover`, `dis_last` and `dis_trend_3` may be absent. -/
structure LiveWeatherData where
  elevation : ℚ
  precip_1d : ℚ
  precip_3d : ℚ
  precip_7d : ℚ
  precip_14d : ℚ
  slope : Option ℚ
  landcover : Option ℚ
  dis_last : Option ℚ
  dis_trend_3 : Option ℚ
deriving DecidableEq

/-- JavaScript `x || y` on an optional numeric field: an absent field and a
zero value are falsy and yield the fallback; any other number is kept. -/
def jsOr (v : Option ℚ) (fallback : ℚ) : ℚ :=
  match v with
  | some q => if q = 0 then fallback else q
  | none => fallback

/-- The state update of `fetchLiveData` (`PredictionForm.tsx`) on a
successful fetch: spread the previous form state, overwrite elevation and
the four precipitation windows unconditionally, and overwrite the four
remaining fetched fields through `||` fallbacks. -/
def fetchLiveDataUpdate (prev : FormData) (data : LiveWeatherData) : FormData :=
  { prev with
    elevation := data.elevation
    precip_1d := data.precip_1d
    precip_3d := data.precip_3d
    precip_7d := data.precip_7d
    precip_14d := data.precip_14d
    slope := jsOr data.slope prev.slope
    landcover := jsOr data.landcover prev.landcover
    dis_last := jsOr data.dis_last prev.dis_last
    dis_trend_3 := jsOr data.dis_trend_3 prev.dis_trend_3 }

theorem jsOr_falsy (v : Option ℚ) (fallback : ℚ)
    (h : v = none ∨ v = some 0) : jsOr v fallback = fallback := by
  rcases h with h | h <;> subst h <;> simp [jsOr]

theorem jsOr_truthy (q fallback : ℚ) (h : q ≠ 0) :
    jsOr (some q) fallback = q := by
  simp [jsOr, h]

/-- C9: after a historical date is selected, the handler sets all four
precipitation windows to that single day value (equal windows, not
cumulative sums), sets both `date` and `dayofyear` to the computed day of
year of the selected date, and leaves every other form field unchanged. -/
theorem handle_historical_date_select_spec (prev : FormData)
    (entryPrecipitation : ℚ) (dateMs startMs : ℤ) :
    (handleHistoricalDateSelect prev entryPrecipitation dateMs startMs).precip_1d
        = entryPrecipitation
    ∧ (handleHistoricalDateSelect prev entryPrecipitation dateMs startMs).precip_3d
        = entryPrecipitation
    ∧ (handleHistoricalDateSelect prev entryPrecipitation dateMs startMs).precip_7d
        = entryPrecipitation
    ∧ (handleHistoricalDateSelect prev entryPrecipitation dateMs startMs).precip_14d
        = entryPrecipitation
    ∧ (handleHistoricalDateSelect prev entryPrecipitation dateMs startMs).date
        = (computeDayOfYear dateMs startMs : ℚ)
    ∧ (handleHistoricalDateSelect prev entryPrecipitation dateMs startMs).dayofyear
        = (computeDayOfYear dateMs startMs : ℚ)
    ∧ (handleHistoricalDateSelect prev entryPrecipitation dateMs startMs).lat
        = prev.lat
    ∧ (handleHistoricalDateSelect prev entryPrecipitation dateMs startMs).lon
        = prev.lon
    ∧ (handleHistoricalDateSelect prev entryPrecipitation dateMs startMs).elevation
        = prev.elevation
    ∧ (handleHistoricalDateSelect prev entryPrecipitation dateMs startMs).slope
        = prev.slope
    ∧ (handleHistoricalDateSelect prev entryPrecipitation dateMs startMs).landcover
        = prev.landcover
    ∧ (handleHistoricalDateSelect prev entryPrecipitation dateMs startMs).dis_last
        = prev.dis_last
    ∧ (handleHistoricalDateSelect prev entryPrecipitation dateMs startMs).dis_trend_3
        = prev.dis_trend_3 :=
  ⟨rfl, rfl, rfl, rfl, rfl, rfl, rfl, rfl, rfl, rfl, rfl, rfl, rfl⟩

/-- C10: on a successful live-weather fetch the update overwrites elevation
and the four precipitation windows unconditionally, overwrites slope,
landcover, dis_last and dis_trend_3 only by a truthy fetched value — a
fetched 0 or an absent field keeps the previous form value — and leaves
lat, lon, date and dayofyear untouched. -/
theorem fetch_live_data_update_spec (prev : FormData) (data : LiveWeatherData) :
    ((fetchLiveDataUpdate prev data).elevation = data.elevation
      ∧ (fetchLiveDataUpdate prev data).precip_1d = data.precip_1d
      ∧ (fetchLiveDataUpdate prev data).precip_3d = data.precip_3d
      ∧ (fetchLiveDataUpdate prev data).precip_7d = data.precip_7d
      ∧ (fetchLiveDataUpdate prev data).precip_14d = data.precip_14d)
    ∧ ((data.slope = none ∨ data.slope = some 0 →
          (fetchLiveDataUpdate prev data).slope = prev.slope)
      ∧ ∀ q : ℚ, q ≠ 0 → data.slope = some q →
          (fetchLiveDataUpdate prev data).slope = q)
    ∧ ((data.landcover = none ∨ data.landcover = some 0 →
          (fetchLiveDataUpdate prev data).landcover = prev.landcover)
      ∧ ∀ q : ℚ, q ≠ 0 → data.landcover = some q →
          (fetchLiveDataUpdate prev data).landcover = q)
    ∧ ((data.dis_last = none ∨ data.dis_last = some 0 →
          (fetchLiveDataUpdate prev data).dis_last = prev.dis_last)
      ∧ ∀ q : ℚ, q ≠ 0 → data.dis_last = some q →
          (fetchLiveDataUpdate prev data).dis_last = q)
    ∧ ((data.dis_trend_3 = none ∨ data.dis_trend_3 = some 0 →
          (fetchLiveDataUpdate prev data).dis_trend_3 = prev.dis_trend_3)
      ∧ ∀ q : ℚ, q ≠ 0 → data.dis_trend_3 = some q →
          (fetchLiveDataUpdate prev data).dis_trend_3 = q)
    ∧ ((fetchLiveDataUpdate prev data).lat = prev.lat
      ∧ (fetchLiveDataUpdate prev data).lon = prev.lon
      ∧ (fetchLiveDataUpdate prev data).date = prev.date
      ∧ (fetchLiveDataUpdate prev data).dayofyear = prev.dayofyear) :=
  ⟨⟨rfl, rfl, rfl, rfl, rfl⟩,
    ⟨fun h => jsOr_falsy _ _ h, fun q hq hs => by
      show jsOr data.slope prev.slope = q
      rw [hs]; exact jsOr_truthy q _ hq⟩,
    ⟨fun h => jsOr_falsy _ _ h, fun q hq hs => by
      show jsOr data.landcover prev.landcover = q
      rw [hs]; exact jsOr_truthy q _ hq⟩,
    ⟨fun h => jsOr_falsy _ _ h, fun q hq hs => by
      show jsOr data.dis_last prev.dis_last = q
      rw [hs]; exact jsOr_truthy q _ hq⟩,
    ⟨fun h => jsOr_falsy _ _ h, fun q hq hs => by
      show jsOr data.dis_trend_3 prev.dis_trend_3 = q
      rw [hs]; exact jsOr_truthy q _ hq⟩,
    ⟨rfl, rfl, rfl, rfl⟩⟩

/-- A concrete previous form state for the C10 witness. -/
def sampleForm : FormData :=
  { lat := 1, lon := 2, date := 3, elevation := 4, slope := 5, landcover := 6,
    precip_1d := 7, precip_3d := 8, precip_7d := 9, precip_14d := 10,
    dis_last := 11, dis_trend_3 := 12, dayofyear := 13 }

/-- A concrete fetched payload for the C10 witness: slope fetched as 0,
landcover absent, dis_last fetched as 30, dis_trend_3 absent. -/
def sampleLive : LiveWeatherData :=
  { elevation := 20, precip_1d := 21, precip_3d := 22, precip_7d := 23,
    precip_14d := 24, slope := some 0, landcover := none,
    dis_last := some 30, dis_trend_3 := none }

/-- C10 witness: on the concrete payload, elevation is overwritten, the
falsy slope and landcover keep their previous values, and the truthy
dis_last is overwritten. -/
theorem fetch_live_data_update_check :
    (fetchLiveDataUpdate sampleForm sampleLive).elevation = sampleLive.elevation
    ∧ (fetchLiveDataUpdate sampleForm sampleLive).slope = sampleForm.slope
    ∧ (fetchLiveDataUpdate sampleForm sampleLive).landcover = sampleForm.landcover
    ∧ (fetchLiveDataUpdate sampleForm sampleLive).dis_last = 30 :=
  ⟨(fetch_live_data_update_spec sampleForm sampleLive).1.1,
    (fetch_live_data_update_spec sampleForm sampleLive).2.1.1 (Or.inr rfl),
    (fetch_live_data_update_spec sampleForm sampleLive).2.2.1.1 (Or.inl rfl),
    (fetch_live_data_update_spec sampleForm sampleLive).2.2.2.1.2 30
      (by norm_num) rfl⟩

end FloodPredictor
